import Mathlib

/-!
Shallow embedding of the Adaptive Interview Flow Engine and the
Interruption/Turn-Taking Controller of the AI-Interview-Assistant
repository.

The definitions below are translated from the TypeScript source:
  * the adaptive-flow module (initializeFlowState, generateInitialQuestions,
    analyzeUserResponse, updateFlowState, generateNextQuestion,
    shouldContinueInterview, generateInterviewSummary);
  * the interruption-handling module (InterruptionHandler.recordInterruption
    and createInterruptionAwareMessageHandler);
  * the initialize-flow and next-question HTTP route handlers.

External collaborators (the text-generation service, the document store and
the wall clock) are modelled as explicit parameters: the generation service's
output is passed in already parsed (JSON.parse success or failure is the
`Option`), persistence is modelled as the ordered list of full-document
writes the code issues, and timestamps are parameters.

JavaScript numbers holding the small integer quantities of this module are
modelled as `Int`.  The one floating-point expression, `Math.round(0.7 *
currentDifficulty + 0.3 * suggestedNextDifficulty)`, is modelled as exact
round-half-up of `(7 * c + 3 * s) / 10`, which is `Int.fdiv (7*c + 3*s + 5)
10`; on the 1..10 operand range relevant here the double-precision
evaluation agrees with the exact one (checked at the tie cases used below).
-/

/-- One record of the per-session question history (`QuestionRecord`). -/
structure QuestionRecord where
  question : String
  timestamp : String
  difficulty : Int
  category : String
deriving Repr, DecidableEq

/-- The analysis record produced for one candidate answer
(`ResponseAnalysis`), in its well-typed form. -/
structure ResponseAnalysis where
  mvpKeywords : List String
  confidence : Int
  technicalAccuracy : Int
  completeness : Int
  overallScore : Int
  suggestedNextDifficulty : Int
  reasoning : String
deriving Repr, DecidableEq

/-- Per-session adaptive flow state (`AdaptiveFlowState`). -/
structure AdaptiveFlowState where
  sessionId : String
  currentDifficulty : Int
  baseDifficulty : Int
  consecutiveCorrect : Int
  consecutiveIncorrect : Int
  totalQuestions : Int
  questionsAsked : Int
  mvpKeywords : List String
  role : String
  techStack : List String
  questionHistory : List QuestionRecord
  lastAnalysis : Option ResponseAnalysis
deriving Repr, DecidableEq

/-- Exact model of `Math.round(0.7 * c + 0.3 * s)` for integer `c`, `s`:
JavaScript `Math.round x` is `floor (x + 0.5)`, and for the exact rational
`(7*c + 3*s) / 10` that floor is `Int.fdiv (7*c + 3*s + 5) 10`. -/
def roundBlend (c s : Int) : Int :=
  Int.fdiv (7 * c + 3 * s + 5) 10

/-- The keyword merge of `updateFlowState`: `newKeywords` is the analysis
keywords filtered by non-membership in the existing list (JS
`Array.includes`, exact equality), then appended. -/
def mergeKeywords (existing fromAnalysis : List String) : List String :=
  existing ++ fromAnalysis.filter (fun keyword => !(existing.contains keyword))

/-- Streak counter after the classification step of `updateFlowState`
(before the difficulty cascade possibly resets it): `overallScore >= 7`
increments `consecutiveCorrect`, `overallScore <= 4` zeroes it. -/
def classifiedCorrect (s : AdaptiveFlowState) (a : ResponseAnalysis) : Int :=
  if 7 ≤ a.overallScore then s.consecutiveCorrect + 1
  else if a.overallScore ≤ 4 then 0
  else s.consecutiveCorrect

/-- Streak counter after the classification step of `updateFlowState`:
`overallScore <= 4` increments `consecutiveIncorrect`, `overallScore >= 7`
zeroes it. -/
def classifiedIncorrect (s : AdaptiveFlowState) (a : ResponseAnalysis) : Int :=
  if 7 ≤ a.overallScore then 0
  else if a.overallScore ≤ 4 then s.consecutiveIncorrect + 1
  else s.consecutiveIncorrect

/-- The difficulty cascade of `updateFlowState`, before the base-deviation
clamp: streak of 3 correct bumps difficulty (capped at 10), streak of 2
incorrect lowers it (floored at 1), otherwise the 0.7/0.3 weighted blend
with the analysis's suggestion. -/
def cascadeDifficulty (s : AdaptiveFlowState) (a : ResponseAnalysis) : Int :=
  if 3 ≤ classifiedCorrect s a then min 10 (s.currentDifficulty + 1)
  else if 2 ≤ classifiedIncorrect s a then max 1 (s.currentDifficulty - 1)
  else roundBlend s.currentDifficulty a.suggestedNextDifficulty

/-- Final `consecutiveCorrect`: reset to 0 when the bump branch fired. -/
def finalCorrect (s : AdaptiveFlowState) (a : ResponseAnalysis) : Int :=
  if 3 ≤ classifiedCorrect s a then 0 else classifiedCorrect s a

/-- Final `consecutiveIncorrect`: reset to 0 when the lower branch fired
(the lower branch fires only when the bump branch did not). -/
def finalIncorrect (s : AdaptiveFlowState) (a : ResponseAnalysis) : Int :=
  if 3 ≤ classifiedCorrect s a then classifiedIncorrect s a
  else if 2 ≤ classifiedIncorrect s a then 0
  else classifiedIncorrect s a

/-- The clamp at the end of `updateFlowState`:
`Math.max(base - 3, Math.min(base + 3, nd))`.  The source applies no
further clamp to the 1..10 range. -/
def clampToBase (base nd : Int) : Int :=
  max (base - 3) (min (base + 3) nd)

/-- `updateFlowState`: pure state transition of the difficulty controller.
Merges keywords, classifies the round, runs the difficulty cascade, clamps
to within 3 of the base difficulty, increments `questionsAsked` and stores
the analysis. -/
def updateFlowState (s : AdaptiveFlowState) (a : ResponseAnalysis) : AdaptiveFlowState :=
  { s with
    mvpKeywords := mergeKeywords s.mvpKeywords a.mvpKeywords
    consecutiveCorrect := finalCorrect s a
    consecutiveIncorrect := finalIncorrect s a
    currentDifficulty := clampToBase s.baseDifficulty (cascadeDifficulty s a)
    questionsAsked := s.questionsAsked + 1
    lastAnalysis := some a }

/-- Folding `updateFlowState` over a sequence of analyses. -/
def advanceAll (s : AdaptiveFlowState) (as : List ResponseAnalysis) : AdaptiveFlowState :=
  as.foldl updateFlowState s

/-- `initializeFlowState`: the fresh state it constructs (and persists).
The source performs no validation of `baseDifficulty`. -/
def initializeFlowState (sessionId role : String) (techStack : List String)
    (baseDifficulty : Int) (totalQuestions : Int := 10) : AdaptiveFlowState :=
  { sessionId := sessionId
    currentDifficulty := baseDifficulty
    baseDifficulty := baseDifficulty
    consecutiveCorrect := 0
    consecutiveIncorrect := 0
    totalQuestions := totalQuestions
    questionsAsked := 0
    mvpKeywords := []
    role := role
    techStack := techStack
    questionHistory := []
    lastAnalysis := none }

/-- `shouldContinueInterview`: `questionsAsked < totalQuestions`. -/
def shouldContinueInterview (s : AdaptiveFlowState) : Bool :=
  s.questionsAsked < s.totalQuestions

/-- `generateInterviewSummary`: the human-readable report string. -/
def generateInterviewSummary (s : AdaptiveFlowState) : String :=
  let difficultyProgression :=
    String.intercalate " → " (s.questionHistory.map (fun q => toString q.difficulty))
  "Interview Summary:\n- Questions Asked: " ++ toString s.questionsAsked ++ "/"
    ++ toString s.totalQuestions
    ++ "\n- Difficulty Progression: " ++ difficultyProgression
    ++ "\n- Final Difficulty: " ++ toString s.currentDifficulty
    ++ "/10 (Started at " ++ toString s.baseDifficulty ++ "/10)"
    ++ "\n- Key Topics Covered: " ++ String.intercalate ", " s.mvpKeywords
    ++ "\n- Consecutive Correct Streak: " ++ toString s.consecutiveCorrect

/-- The shape of a successfully `JSON.parse`d analysis object as the
untyped source actually receives it: every required field may be absent
(`none` models a missing property; the source casts without checking). -/
structure RawAnalysis where
  mvpKeywords : Option (List String)
  confidence : Option Int
  technicalAccuracy : Option Int
  completeness : Option Int
  overallScore : Option Int
  suggestedNextDifficulty : Option Int
  reasoning : Option String
deriving Repr, DecidableEq

/-- The fallback analysis built in the catch branch of
`analyzeUserResponse`, with every field present. -/
def fallbackAnalysis (currentDifficulty : Int) : RawAnalysis :=
  { mvpKeywords := some []
    confidence := some 5
    technicalAccuracy := some 5
    completeness := some 5
    overallScore := some 5
    suggestedNextDifficulty := some currentDifficulty
    reasoning := some "Unable to analyze response properly" }

/-- `analyzeUserResponse`, as a function of the outcome of
`JSON.parse` on the generation collaborator's text (`none` models a parse
exception).  On parse success the source returns the parsed object as-is,
with no validation of its fields; only a parse exception produces the
fallback. -/
def analyzeUserResponse (parsed : Option RawAnalysis) (currentDifficulty : Int) : RawAnalysis :=
  match parsed with
  | some analysis => analysis
  | none => fallbackAnalysis currentDifficulty

/-- Outcome of `JSON.parse` on the initial-questions text: an array of
strings, some other JSON value, or (`none` at the use site) an exception. -/
inductive ParsedJson where
  | arr (xs : List String)
  | nonArray
deriving Repr, DecidableEq

/-- JS `techStack[0] || "your tech stack"`: first element unless the array
is empty or its first element is the empty string (falsy). -/
def firstTechOr (techStack : List String) : String :=
  match techStack with
  | [] => "your tech stack"
  | t :: _ => if t = "" then "your tech stack" else t

/-- `generateInitialQuestions`, as a function of the outcome of
`JSON.parse` on the generation collaborator's text.  A successfully parsed
array is returned as-is (whatever its length); a parsed non-array yields
`[]`; a parse exception yields the fixed fallback triple. -/
def generateInitialQuestions (parsed : Option ParsedJson) (role : String)
    (techStack : List String) : List String :=
  match parsed with
  | some (ParsedJson.arr xs) => xs
  | some ParsedJson.nonArray => []
  | none =>
      [ "Tell me about your experience with " ++ role ++ " positions."
      , "How would you approach a challenging problem in " ++ firstTechOr techStack ++ "?"
      , "Describe a time when you had to learn a new technology quickly." ]

/-- The ordered sequence of full-document persistence writes issued by
`generateNextQuestion` for one call, as functions of the (well-typed)
analysis result, the generated question text (after the source's
trim/unquote post-processing) and the wall-clock timestamp string.  The
source writes the advanced state first, then generates the question,
appends the history record and writes again under the same `sessionId`
key. -/
def generateNextQuestionWrites (s : AdaptiveFlowState) (a : ResponseAnalysis)
    (questionText timestamp : String) : List AdaptiveFlowState :=
  let updatedState := updateFlowState s a
  let finalState :=
    { updatedState with
      questionHistory := updatedState.questionHistory ++
        [{ question := questionText
           timestamp := timestamp
           difficulty := updatedState.currentDifficulty
           category := "adaptive" }] }
  [updatedState, finalState]

/-- JS truthiness of an optional string request field: absent or empty is
falsy. -/
def truthyStr (s : Option String) : Bool :=
  match s with
  | none => false
  | some v => v ≠ ""

/-- Response of the initialize-flow route: the 400 missing-parameters
result, or the 200 result carrying the fresh flow state and the initial
questions.  (The source has no other failure path for the request body:
in particular no range validation of `baseDifficulty`.) -/
inductive InitializeFlowResponse where
  | missingParams
  | ok (flowState : AdaptiveFlowState) (initialQuestions : List String)
deriving Repr, DecidableEq

/-- Whether an initialize-flow response is the 200 success. -/
def InitializeFlowResponse.succeeded : InitializeFlowResponse → Bool
  | InitializeFlowResponse.missingParams => false
  | InitializeFlowResponse.ok _ _ => true

/-- The flow state carried by a 200 initialize-flow response. -/
def InitializeFlowResponse.flowStateOut : InitializeFlowResponse → Option AdaptiveFlowState
  | InitializeFlowResponse.missingParams => none
  | InitializeFlowResponse.ok s _ => some s

/-- The initialize-flow POST handler: checks truthiness of `sessionId`,
`role`, `techStack` and presence of `baseDifficulty`, then builds the
fresh state with `totalQuestions || 10` and returns it together with the
initial questions (whose generation outcome is the `questionsParsed`
parameter).  An absent `techStack` is the only falsy array value the
source's check can see, so the body field is simply optional here. -/
def initializeFlowRoute (bodySessionId bodyRole : Option String)
    (bodyTechStack : Option (List String)) (bodyBaseDifficulty bodyTotalQuestions : Option Int)
    (questionsParsed : Option ParsedJson) : InitializeFlowResponse :=
  match bodySessionId, bodyRole, bodyTechStack, bodyBaseDifficulty with
  | some sessionId, some role, some techStack, some baseDifficulty =>
      if sessionId = "" ∨ role = "" then InitializeFlowResponse.missingParams
      else
        let totalQuestions :=
          match bodyTotalQuestions with
          | none => 10
          | some t => if t = 0 then 10 else t
        InitializeFlowResponse.ok
          (initializeFlowState sessionId role techStack baseDifficulty totalQuestions)
          (generateInitialQuestions questionsParsed role techStack)
  | _, _, _, _ => InitializeFlowResponse.missingParams

/-- Response body of the next-question route, mirroring the JSON fields the
handler can emit. -/
structure NextQuestionResponse where
  success : Bool
  status : Int
  errorMsg : Option String := none
  shouldContinue : Option Bool := none
  message : Option String := none
  summary : Option String := none
  nextQuestion : Option String := none
  flowState : Option AdaptiveFlowState := none
  questionsRemaining : Option Int := none
deriving Repr, DecidableEq

/-- Result of one next-question POST: the response, the ordered list of
persistence writes issued, and how many times the response analyzer was
invoked. -/
structure NextQuestionResult where
  response : NextQuestionResponse
  persistedWrites : List AdaptiveFlowState
  analyzerCalls : Int
deriving Repr, DecidableEq

/-- The next-question POST handler: validates the three body fields
(truthiness), looks up the stored flow state (`stored` is the document
store's answer), short-circuits with the summary when
`shouldContinueInterview` is false, and otherwise runs the
`generateNextQuestion` pipeline (analysis outcome, generated question text
and timestamp are parameters) and re-reads the state it last wrote. -/
def nextQuestionRoute (sessionId userResponse currentQuestion : Option String)
    (stored : Option AdaptiveFlowState) (a : ResponseAnalysis)
    (questionText timestamp : String) : NextQuestionResult :=
  if ¬ (truthyStr sessionId ∧ truthyStr userResponse ∧ truthyStr currentQuestion) then
    { response := { success := false, status := 400,
                    errorMsg := some "Missing required parameters" }
      persistedWrites := []
      analyzerCalls := 0 }
  else
    match stored with
    | none =>
        { response := { success := false, status := 404,
                        errorMsg := some "Flow state not found. Please initialize first." }
          persistedWrites := []
          analyzerCalls := 0 }
    | some flowState =>
        if ¬ shouldContinueInterview flowState then
          { response := { success := true, status := 200,
                          shouldContinue := some false,
                          message := some "Interview completed",
                          summary := some (generateInterviewSummary flowState) }
            persistedWrites := []
            analyzerCalls := 0 }
        else
          let writes := generateNextQuestionWrites flowState a questionText timestamp
          let updated := writes.getLastD flowState
          { response := { success := true, status := 200,
                          shouldContinue := some true,
                          nextQuestion := some questionText,
                          flowState := some updated,
                          questionsRemaining :=
                            some (updated.totalQuestions - updated.questionsAsked) }
            persistedWrites := writes
            analyzerCalls := 1 }

/-- One voice-transport event as seen by the message handler; only the
fields the handler reads, plus the transcript text (which the handler does
not inspect). -/
structure VapiMessage where
  type : String
  role : String := ""
  transcriptType : String := ""
  status : String := ""
  transcript : String := ""
deriving Repr, DecidableEq

/-- State of the interruption-aware message handler closure together with
the parts of `InterruptionHandler` the claims observe: the closure's
`aiSpeechStartTime`, the handler's `interruptionTimes` delay list and
`totalInterruptions` counter, and counts of the three callback
invocations. -/
structure HandlerState where
  aiSpeechStartTime : Option Int
  interruptionTimes : List Int
  totalInterruptions : Int
  interruptionCallbacks : Int
  speechStartCallbacks : Int
  speechEndCallbacks : Int
deriving Repr, DecidableEq

/-- Fresh handler state: no AI speech in progress, nothing recorded. -/
def initialHandlerState : HandlerState :=
  { aiSpeechStartTime := none
    interruptionTimes := []
    totalInterruptions := 0
    interruptionCallbacks := 0
    speechStartCallbacks := 0
    speechEndCallbacks := 0 }

/-- JS truthiness of the nullable `aiSpeechStartTime`: set and nonzero. -/
def truthyTime (t : Option Int) : Bool :=
  match t with
  | none => false
  | some v => v ≠ 0

/-- `InterruptionHandler.recordInterruption`: pushes
`userSpeechDetectedTime - aiSpeechStartTime` onto `interruptionTimes` and
increments `totalInterruptions` (the derived min/max/average metrics are
determined by the pushed list and are not duplicated here). -/
def recordInterruption (s : HandlerState) (aiStart timestamp : Int) : HandlerState :=
  { s with
    interruptionTimes := s.interruptionTimes ++ [timestamp - aiStart]
    totalInterruptions := s.totalInterruptions + 1 }

/-- One step of the closure returned by
`createInterruptionAwareMessageHandler`, applied to a message stamped with
`Date.now()`.  The five guards of the source run in order; each requires a
distinct `message.type`, and the interruption-class guards additionally
require a truthy `aiSpeechStartTime` before recording. -/
def handleMessage (s : HandlerState) (m : VapiMessage) (timestamp : Int) : HandlerState :=
  let s1 :=
    if m.type = "speech-start" ∧ m.role = "assistant" then
      { s with aiSpeechStartTime := some timestamp
               speechStartCallbacks := s.speechStartCallbacks + 1 }
    else s
  let s2 :=
    if m.type = "speech-end" ∧ m.role = "assistant" then
      { s1 with aiSpeechStartTime := none
                speechEndCallbacks := s1.speechEndCallbacks + 1 }
    else s1
  let s3 :=
    if m.type = "transcript" ∧ m.role = "user" ∧ m.transcriptType = "partial"
        ∧ truthyTime s2.aiSpeechStartTime then
      let r := recordInterruption s2 (s2.aiSpeechStartTime.getD 0) timestamp
      { r with interruptionCallbacks := r.interruptionCallbacks + 1 }
    else s2
  let s4 :=
    if m.type = "user-interrupted" then
      let r :=
        if truthyTime s3.aiSpeechStartTime then
          recordInterruption s3 (s3.aiSpeechStartTime.getD 0) timestamp
        else s3
      { r with interruptionCallbacks := r.interruptionCallbacks + 1 }
    else s3
  let s5 :=
    if m.type = "voice-input" ∧ truthyTime s4.aiSpeechStartTime then
      let r := recordInterruption s4 (s4.aiSpeechStartTime.getD 0) timestamp
      { r with interruptionCallbacks := r.interruptionCallbacks + 1 }
    else s4
  if m.type = "speech-update" ∧ m.role = "user" ∧ m.status = "started"
      ∧ truthyTime s5.aiSpeechStartTime then
    let r := recordInterruption s5 (s5.aiSpeechStartTime.getD 0) timestamp
    { r with interruptionCallbacks := r.interruptionCallbacks + 1 }
  else s5

/-- Feeding a timed event sequence through the message handler. -/
def runMessageHandler (s : HandlerState) (events : List (VapiMessage × Int)) : HandlerState :=
  events.foldl (fun st e => handleMessage st e.1 e.2) s

/-- The weighted blend stays in 1..10 when both operands do. -/
theorem roundBlend_bounds (c s : Int) (hc1 : 1 ≤ c) (hc2 : c ≤ 10)
    (hs1 : 1 ≤ s) (hs2 : s ≤ 10) : 1 ≤ roundBlend c s ∧ roundBlend c s ≤ 10 := by
  unfold roundBlend
  rw [Int.fdiv_eq_ediv _ (by norm_num : (0 : Int) ≤ 10)]
  omega

/-- The difficulty cascade stays in 1..10 when the current difficulty and
the suggestion do. -/
theorem cascadeDifficulty_bounds (s : AdaptiveFlowState) (a : ResponseAnalysis)
    (hc1 : 1 ≤ s.currentDifficulty) (hc2 : s.currentDifficulty ≤ 10)
    (hs1 : 1 ≤ a.suggestedNextDifficulty) (hs2 : a.suggestedNextDifficulty ≤ 10) :
    1 ≤ cascadeDifficulty s a ∧ cascadeDifficulty s a ≤ 10 := by
  unfold cascadeDifficulty
  have hb := roundBlend_bounds s.currentDifficulty a.suggestedNextDifficulty hc1 hc2 hs1 hs2
  split_ifs <;> omega

/-- The base-deviation clamp lands in the deviation band, and in 1..10
whenever the base and the clamped value are in 1..10. -/
theorem clampToBase_bounds (base nd : Int) (hb1 : 1 ≤ base) (hb2 : base ≤ 10)
    (hn1 : 1 ≤ nd) (hn2 : nd ≤ 10) :
    base - 3 ≤ clampToBase base nd ∧ clampToBase base nd ≤ base + 3 ∧
    1 ≤ clampToBase base nd ∧ clampToBase base nd ≤ 10 := by
  unfold clampToBase
  omega

/-- C1: for every flow state whose base and current difficulties are in
[1,10] with deviation at most 3, and every analysis whose numeric fields
are in [1,10], the state returned by `updateFlowState` has
`baseDifficulty - 3 ≤ currentDifficulty ≤ baseDifficulty + 3` and
`1 ≤ currentDifficulty ≤ 10`.  (The source applies only the base-deviation
clamp — there is no further defensive clamp to [1,10] — but on this domain
the bounds hold regardless.) -/
theorem C1_difficulty_bounds (s : AdaptiveFlowState) (a : ResponseAnalysis)
    (hb1 : 1 ≤ s.baseDifficulty) (hb2 : s.baseDifficulty ≤ 10)
    (hc1 : 1 ≤ s.currentDifficulty) (hc2 : s.currentDifficulty ≤ 10)
    (hdev : |s.currentDifficulty - s.baseDifficulty| ≤ 3)
    (hconf1 : 1 ≤ a.confidence) (hconf2 : a.confidence ≤ 10)
    (hacc1 : 1 ≤ a.technicalAccuracy) (hacc2 : a.technicalAccuracy ≤ 10)
    (hcom1 : 1 ≤ a.completeness) (hcom2 : a.completeness ≤ 10)
    (hov1 : 1 ≤ a.overallScore) (hov2 : a.overallScore ≤ 10)
    (hs1 : 1 ≤ a.suggestedNextDifficulty) (hs2 : a.suggestedNextDifficulty ≤ 10) :
    (updateFlowState s a).baseDifficulty - 3 ≤ (updateFlowState s a).currentDifficulty ∧
    (updateFlowState s a).currentDifficulty ≤ (updateFlowState s a).baseDifficulty + 3 ∧
    1 ≤ (updateFlowState s a).currentDifficulty ∧
    (updateFlowState s a).currentDifficulty ≤ 10 := by
  have hbase : (updateFlowState s a).baseDifficulty = s.baseDifficulty := rfl
  have hcur : (updateFlowState s a).currentDifficulty
      = clampToBase s.baseDifficulty (cascadeDifficulty s a) := rfl
  have hcas := cascadeDifficulty_bounds s a hc1 hc2 hs1 hs2
  have hcl := clampToBase_bounds s.baseDifficulty (cascadeDifficulty s a) hb1 hb2 hcas.1 hcas.2
  rw [hbase, hcur]
  exact ⟨hcl.1, hcl.2.1, hcl.2.2.1, hcl.2.2.2⟩

/-- Sample flow state for instantiating C1. -/
def midState : AdaptiveFlowState := initializeFlowState "session-c1" "developer" ["react"] 5 10

/-- Sample analysis for instantiating C1. -/
def midAnalysis : ResponseAnalysis :=
  { mvpKeywords := ["api"], confidence := 6, technicalAccuracy := 6, completeness := 6,
    overallScore := 6, suggestedNextDifficulty := 6, reasoning := "solid" }

/-- Witness for C1 at a concrete state and analysis. -/
theorem C1_difficulty_bounds_witness :
    (updateFlowState midState midAnalysis).baseDifficulty - 3
        ≤ (updateFlowState midState midAnalysis).currentDifficulty ∧
    (updateFlowState midState midAnalysis).currentDifficulty
        ≤ (updateFlowState midState midAnalysis).baseDifficulty + 3 ∧
    1 ≤ (updateFlowState midState midAnalysis).currentDifficulty ∧
    (updateFlowState midState midAnalysis).currentDifficulty ≤ 10 :=
  C1_difficulty_bounds midState midAnalysis (by decide) (by decide) (by decide) (by decide)
    (by decide) (by decide) (by decide) (by decide) (by decide) (by decide) (by decide)
    (by decide) (by decide) (by decide) (by decide)

/-- The streak-counter invariant: both counters non-negative and at most
one of them nonzero. -/
def counterInvariant (s : AdaptiveFlowState) : Prop :=
  0 ≤ s.consecutiveCorrect ∧ 0 ≤ s.consecutiveIncorrect ∧
  (s.consecutiveCorrect = 0 ∨ s.consecutiveIncorrect = 0)

/-- One `updateFlowState` step preserves the streak-counter invariant. -/
theorem counterInvariant_step (s : AdaptiveFlowState) (a : ResponseAnalysis)
    (h : counterInvariant s) : counterInvariant (updateFlowState s a) := by
  have h1 : (updateFlowState s a).consecutiveCorrect = finalCorrect s a := rfl
  have h2 : (updateFlowState s a).consecutiveIncorrect = finalIncorrect s a := rfl
  unfold counterInvariant at h ⊢
  rw [h1, h2]
  unfold finalCorrect finalIncorrect classifiedCorrect classifiedIncorrect
  split_ifs <;> omega

/-- The streak-counter invariant is preserved by any analysis sequence. -/
theorem counterInvariant_advanceAll (s : AdaptiveFlowState) (h : counterInvariant s)
    (as : List ResponseAnalysis) : counterInvariant (advanceAll s as) := by
  induction as generalizing s with
  | nil => exact h
  | cons a rest ih => exact ih (updateFlowState s a) (counterInvariant_step s a h)

/-- C2: starting from an initialized flow state (both streak counters 0),
after any sequence of `updateFlowState` calls both counters are
non-negative and at most one of them is nonzero; quantifying over all
sequences covers the state after every intermediate advance call. -/
theorem C2_counter_invariant (sid role : String) (ts : List String) (bd tq : Int)
    (as : List ResponseAnalysis) :
    0 ≤ (advanceAll (initializeFlowState sid role ts bd tq) as).consecutiveCorrect ∧
    0 ≤ (advanceAll (initializeFlowState sid role ts bd tq) as).consecutiveIncorrect ∧
    ((advanceAll (initializeFlowState sid role ts bd tq) as).consecutiveCorrect = 0 ∨
     (advanceAll (initializeFlowState sid role ts bd tq) as).consecutiveIncorrect = 0) := by
  have h := counterInvariant_advanceAll (initializeFlowState sid role ts bd tq)
    ⟨le_refl 0, le_refl 0, Or.inl rfl⟩ as
  exact ⟨h.1, h.2.1, h.2.2⟩

/-- Fresh state with base difficulty 5 used by C6. -/
def freshBase5 : AdaptiveFlowState := initializeFlowState "session-c6" "developer" ["react"] 5 10

/-- Passing analysis whose difficulty suggestion is the maximum. -/
def passHighSuggestion : ResponseAnalysis :=
  { mvpKeywords := [], confidence := 7, technicalAccuracy := 7, completeness := 7,
    overallScore := 7, suggestedNextDifficulty := 10, reasoning := "strong answer" }

/-- C6 counterexample: three consecutive passing rounds (overallScore 7)
from the fresh base-5 state do NOT yield difficulty 6 when the analyses
suggest difficulty 10 — the blend branch raises the difficulty on the
first two rounds and the final state has difficulty 8. -/
theorem C6_counterexample :
    7 ≤ passHighSuggestion.overallScore ∧
    (advanceAll freshBase5 [passHighSuggestion, passHighSuggestion, passHighSuggestion]).currentDifficulty = 8 ∧
    (advanceAll freshBase5 [passHighSuggestion, passHighSuggestion, passHighSuggestion]).currentDifficulty ≠ 6 := by
  decide

/-- One passing round in the blend branch from difficulty 5, base 5, with
suggestion 5: the difficulty stays 5 and the correct streak grows. -/
theorem pass_round_blend (s : AdaptiveFlowState) (a : ResponseAnalysis)
    (hsc : 7 ≤ a.overallScore) (hsug : a.suggestedNextDifficulty = 5)
    (hcc : s.consecutiveCorrect = 0 ∨ s.consecutiveCorrect = 1)
    (hcur : s.currentDifficulty = 5) (hbase : s.baseDifficulty = 5) :
    (updateFlowState s a).consecutiveCorrect = s.consecutiveCorrect + 1 ∧
    (updateFlowState s a).currentDifficulty = 5 ∧
    (updateFlowState s a).baseDifficulty = 5 := by
  have hc : classifiedCorrect s a = s.consecutiveCorrect + 1 := by
    unfold classifiedCorrect; rw [if_pos hsc]
  have hi : classifiedIncorrect s a = 0 := by
    unfold classifiedIncorrect; rw [if_pos hsc]
  refine ⟨?_, ?_, hbase⟩
  · show finalCorrect s a = s.consecutiveCorrect + 1
    unfold finalCorrect
    rw [hc, if_neg (by omega)]
  · show clampToBase s.baseDifficulty (cascadeDifficulty s a) = 5
    unfold cascadeDifficulty
    rw [hc, hi]
    rw [if_neg (by omega), if_neg (by omega), hsug, hcur, hbase]
    decide

/-- The third passing round: with a correct streak of 2 already, the bump
branch fires, difficulty goes from 5 to 6 and the streak resets. -/
theorem pass_round_bump (s : AdaptiveFlowState) (a : ResponseAnalysis)
    (hsc : 7 ≤ a.overallScore) (hcc : s.consecutiveCorrect = 2)
    (hcur : s.currentDifficulty = 5) (hbase : s.baseDifficulty = 5) :
    (updateFlowState s a).consecutiveCorrect = 0 ∧
    (updateFlowState s a).currentDifficulty = 6 := by
  have hc : classifiedCorrect s a = 3 := by
    unfold classifiedCorrect; rw [if_pos hsc, hcc]; decide
  constructor
  · show finalCorrect s a = 0
    unfold finalCorrect
    rw [hc, if_pos (by omega)]
  · show clampToBase s.baseDifficulty (cascadeDifficulty s a) = 6
    unfold cascadeDifficulty
    rw [hc, if_pos (by omega), hcur, hbase]
    decide

/-- C6 (amended): three consecutive passing rounds (overallScore ≥ 7) whose
analyses suggest difficulty 5 (the current difficulty), from the fresh
base-5 state, yield difficulty 6 with the correct streak reset to 0.  The
suggestion constraint on the first two rounds is what the counterexample
forces: in the blend branch the suggestion moves the difficulty. -/
theorem C6_three_passes (a1 a2 a3 : ResponseAnalysis)
    (h1 : 7 ≤ a1.overallScore) (h1s : a1.suggestedNextDifficulty = 5)
    (h2 : 7 ≤ a2.overallScore) (h2s : a2.suggestedNextDifficulty = 5)
    (h3 : 7 ≤ a3.overallScore) :
    (advanceAll freshBase5 [a1, a2, a3]).currentDifficulty = 6 ∧
    (advanceAll freshBase5 [a1, a2, a3]).consecutiveCorrect = 0 := by
  have hg : advanceAll freshBase5 [a1, a2, a3]
      = updateFlowState (updateFlowState (updateFlowState freshBase5 a1) a2) a3 := rfl
  have r1 := pass_round_blend freshBase5 a1 h1 h1s (Or.inl rfl) rfl rfl
  have r1c : (updateFlowState freshBase5 a1).consecutiveCorrect = 1 := by
    rw [r1.1]; decide
  have r2 := pass_round_blend (updateFlowState freshBase5 a1) a2 h2 h2s
    (Or.inr r1c) r1.2.1 r1.2.2
  have r2c : (updateFlowState (updateFlowState freshBase5 a1) a2).consecutiveCorrect = 2 := by
    rw [r2.1, r1c]; decide
  have r3 := pass_round_bump (updateFlowState (updateFlowState freshBase5 a1) a2) a3 h3
    r2c r2.2.1 r2.2.2
  rw [hg]
  exact ⟨r3.2, r3.1⟩

/-- Passing analysis whose suggestion keeps the difficulty, used to
instantiate C6. -/
def passSuggestion5 : ResponseAnalysis :=
  { mvpKeywords := ["react"], confidence := 8, technicalAccuracy := 8, completeness := 8,
    overallScore := 8, suggestedNextDifficulty := 5, reasoning := "strong answer" }

/-- Witness for the amended C6 at a concrete passing analysis. -/
theorem C6_three_passes_witness :
    (advanceAll freshBase5 [passSuggestion5, passSuggestion5, passSuggestion5]).currentDifficulty = 6 ∧
    (advanceAll freshBase5 [passSuggestion5, passSuggestion5, passSuggestion5]).consecutiveCorrect = 0 :=
  C6_three_passes passSuggestion5 passSuggestion5 passSuggestion5
    (by decide) rfl (by decide) rfl (by decide)

/-- Analysis carrying a duplicated keyword, used by the C7 counterexample. -/
def dupKeywordAnalysis : ResponseAnalysis :=
  { mvpKeywords := ["react", "react"], confidence := 8, technicalAccuracy := 8,
    completeness := 8, overallScore := 8, suggestedNextDifficulty := 5,
    reasoning := "mentions react twice" }

/-- C7 counterexample: from a duplicate-free state, merging an analysis
whose keyword list repeats a keyword internally produces a merged list
with a duplicate — the source filters only against the existing list, not
within the incoming one. -/
theorem C7_counterexample :
    (initializeFlowState "session-c7" "developer" ["react"] 5 10).mvpKeywords.Nodup ∧
    (updateFlowState (initializeFlowState "session-c7" "developer" ["react"] 5 10)
        dupKeywordAnalysis).mvpKeywords = ["react", "react"] ∧
    ¬ (updateFlowState (initializeFlowState "session-c7" "developer" ["react"] 5 10)
        dupKeywordAnalysis).mvpKeywords.Nodup := by
  decide

/-- Membership in the merged keyword list is membership in either input. -/
theorem mergeKeywords_mem (old new : List String) (k : String) :
    k ∈ mergeKeywords old new ↔ k ∈ old ∨ (k ∈ new ∧ k ∉ old) := by
  unfold mergeKeywords
  simp only [List.mem_append, List.mem_filter, Bool.not_eq_true']
  constructor
  · rintro (h | ⟨hn, hc⟩)
    · exact Or.inl h
    · refine Or.inr ⟨hn, ?_⟩
      simpa using hc
  · rintro (h | ⟨hn, hc⟩)
    · exact Or.inl h
    · refine Or.inr ⟨hn, ?_⟩
      simpa using hc

/-- The merged keyword list is duplicate-free when both inputs are. -/
theorem mergeKeywords_nodup (old new : List String) (ho : old.Nodup) (hn : new.Nodup) :
    (mergeKeywords old new).Nodup := by
  unfold mergeKeywords
  refine List.Nodup.append ho (hn.filter _) ?_
  intro x hx hx2
  simp only [List.mem_filter, Bool.not_eq_true'] at hx2
  simp_all

/-- When every incoming keyword is already present, the merge is the
identity. -/
theorem mergeKeywords_subset_eq (old new : List String)
    (h : ∀ k ∈ new, k ∈ old) : mergeKeywords old new = old := by
  unfold mergeKeywords
  have hf : new.filter (fun keyword => !(old.contains keyword)) = [] := by
    rw [List.filter_eq_nil_iff]
    intro k hk
    simpa using h k hk
  rw [hf, List.append_nil]

/-- C7 (amended): for every state whose keyword list is duplicate-free and
every analysis whose own keyword list is duplicate-free (the constraint
the counterexample forces), the merged list retains all existing keywords,
contains only keywords from the state or the analysis (new ones exactly
when absent before), is duplicate-free, and is unchanged when every
incoming keyword is already present. -/
theorem C7_keyword_merge (s : AdaptiveFlowState) (a : ResponseAnalysis)
    (hs : s.mvpKeywords.Nodup) (ha : a.mvpKeywords.Nodup) :
    (∀ k ∈ s.mvpKeywords, k ∈ (updateFlowState s a).mvpKeywords) ∧
    (∀ k, k ∈ (updateFlowState s a).mvpKeywords ↔
      k ∈ s.mvpKeywords ∨ (k ∈ a.mvpKeywords ∧ k ∉ s.mvpKeywords)) ∧
    (updateFlowState s a).mvpKeywords.Nodup ∧
    ((∀ k ∈ a.mvpKeywords, k ∈ s.mvpKeywords) →
      (updateFlowState s a).mvpKeywords = s.mvpKeywords) := by
  have hm : (updateFlowState s a).mvpKeywords = mergeKeywords s.mvpKeywords a.mvpKeywords := rfl
  rw [hm]
  refine ⟨?_, ?_, ?_, ?_⟩
  · intro k hk
    exact (mergeKeywords_mem s.mvpKeywords a.mvpKeywords k).mpr (Or.inl hk)
  · intro k
    exact mergeKeywords_mem s.mvpKeywords a.mvpKeywords k
  · exact mergeKeywords_nodup s.mvpKeywords a.mvpKeywords hs ha
  · intro h
    exact mergeKeywords_subset_eq s.mvpKeywords a.mvpKeywords h

/-- State already holding the keyword the C7 witness analysis repeats. -/
def seededKeywordState : AdaptiveFlowState :=
  { initializeFlowState "session-c7w" "developer" ["react"] 5 10 with
    mvpKeywords := ["react", "redux"] }

/-- Analysis whose keywords are a subset of the seeded state's keywords. -/
def subsetKeywordAnalysis : ResponseAnalysis :=
  { mvpKeywords := ["redux"], confidence := 7, technicalAccuracy := 7, completeness := 7,
    overallScore := 7, suggestedNextDifficulty := 5, reasoning := "repeats redux" }

/-- Witness for the amended C7 at concrete duplicate-free inputs. -/
theorem C7_keyword_merge_witness :
    (updateFlowState seededKeywordState subsetKeywordAnalysis).mvpKeywords.Nodup :=
  (C7_keyword_merge seededKeywordState subsetKeywordAnalysis (by decide) (by decide)).2.2.1

/-- A successfully parsed analysis object with every required field
missing (JSON text "\x7b\x7d"). -/
def emptyRawAnalysis : RawAnalysis :=
  { mvpKeywords := none, confidence := none, technicalAccuracy := none,
    completeness := none, overallScore := none, suggestedNextDifficulty := none,
    reasoning := none }

/-- C3 counterexample: when the generation collaborator's output parses as
JSON but is missing every required field, `analyzeUserResponse` returns
that object unchanged, not the fallback — the source validates nothing
after a successful parse. -/
theorem C3_counterexample :
    analyzeUserResponse (some emptyRawAnalysis) 7 = emptyRawAnalysis ∧
    analyzeUserResponse (some emptyRawAnalysis) 7 ≠ fallbackAnalysis 7 := by
  decide

/-- C3 (amended): the exact fallback — all numeric fields 5, empty keyword
list, suggestion equal to the input difficulty, the fixed reasoning string
— is returned exactly when `JSON.parse` fails; a successfully parsed
object is returned as-is even when required fields are missing.  Both
paths are total (never throw). -/
theorem C3_fallback_on_parse_failure (d : Int) :
    analyzeUserResponse none d =
      { mvpKeywords := some [], confidence := some 5, technicalAccuracy := some 5,
        completeness := some 5, overallScore := some 5,
        suggestedNextDifficulty := some d,
        reasoning := some "Unable to analyze response properly" } ∧
    ∀ r : RawAnalysis, analyzeUserResponse (some r) d = r :=
  ⟨rfl, fun _ => rfl⟩

/-- C8 counterexample: `generateInitialQuestions` does not always return
exactly 3 question strings.  When the generation collaborator's output
parses as the JSON array `[]` the function returns the empty list (0
questions), and a parsed 2-element array is passed through unchanged (2
questions) — the source returns any successfully parsed array without
checking its length. -/
theorem C8_counterexample :
    generateInitialQuestions (some (ParsedJson.arr [])) "developer" ["react"] = [] ∧
    (generateInitialQuestions (some (ParsedJson.arr [])) "developer" ["react"]).length ≠ 3 ∧
    generateInitialQuestions (some (ParsedJson.arr ["Q1", "Q2"])) "developer" ["react"]
      = ["Q1", "Q2"] ∧
    (generateInitialQuestions (some (ParsedJson.arr ["Q1", "Q2"])) "developer"
      ["react"]).length ≠ 3 := by
  decide

/-- C8 (amended): on parse failure `generateInitialQuestions` returns the
fixed deterministic fallback triple (role-experience question,
tech-stack-specific question, generic learn-new-technology question) of
length 3 and never fails; but a successfully parsed array is returned
as-is whatever its length (and a parsed non-array yields the empty list),
so the result has exactly 3 questions only on the fallback path or when
the collaborator happens to return 3. -/
theorem C8_initial_questions (role : String) (techStack : List String) :
    generateInitialQuestions none role techStack =
      [ "Tell me about your experience with " ++ role ++ " positions."
      , "How would you approach a challenging problem in " ++ firstTechOr techStack ++ "?"
      , "Describe a time when you had to learn a new technology quickly." ] ∧
    (generateInitialQuestions none role techStack).length = 3 ∧
    (∀ xs : List String,
      generateInitialQuestions (some (ParsedJson.arr xs)) role techStack = xs) ∧
    generateInitialQuestions (some ParsedJson.nonArray) role techStack = [] :=
  ⟨rfl, rfl, fun _ => rfl, rfl⟩

/-- C4 counterexample: a base difficulty of 0 — outside [1,10] — is
accepted without any validation error; the route succeeds and the
persisted fresh state carries currentDifficulty = 0. -/
theorem C4_counterexample :
    (initializeFlowRoute (some "session-c4") (some "developer") (some ["react"])
      (some 0) none (some (ParsedJson.arr ["q1"]))).succeeded = true ∧
    ((initializeFlowRoute (some "session-c4") (some "developer") (some ["react"])
      (some 0) none (some (ParsedJson.arr ["q1"]))).flowStateOut.map
      (fun s => s.currentDifficulty)) = some 0 := by
  decide

/-- C4 (amended): the initialize-flow path performs no range validation of
`baseDifficulty` (there is no ValidationError anywhere on this path); for
every request with truthy `sessionId` and `role` and present `techStack`
and `baseDifficulty` — in range or not — it returns a fresh flow state
with both streak counters and `questionsAsked` zero, `currentDifficulty =
baseDifficulty`, empty keyword and history lists, and `totalQuestions`
defaulting to 10 when omitted. -/
theorem C4_no_validation (sid role : String) (ts : List String) (bd : Int)
    (pq : Option ParsedJson) (hsid : sid ≠ "") (hrole : role ≠ "") :
    (initializeFlowRoute (some sid) (some role) (some ts) (some bd) none pq).succeeded = true ∧
    (initializeFlowRoute (some sid) (some role) (some ts) (some bd) none pq).flowStateOut
      = some { sessionId := sid, currentDifficulty := bd, baseDifficulty := bd,
               consecutiveCorrect := 0, consecutiveIncorrect := 0, totalQuestions := 10,
               questionsAsked := 0, mvpKeywords := [], role := role, techStack := ts,
               questionHistory := [], lastAnalysis := none } := by
  have hcond : ¬ (sid = "" ∨ role = "") := by
    rintro (h | h)
    · exact hsid h
    · exact hrole h
  simp only [initializeFlowRoute]
  rw [if_neg hcond]
  exact ⟨rfl, rfl⟩

/-- Witness for the amended C4 at a concrete out-of-range request. -/
theorem C4_no_validation_witness :
    (initializeFlowRoute (some "session-c4w") (some "developer") (some ["react"])
      (some 11) none (some (ParsedJson.arr ["q1"]))).succeeded = true ∧
    (initializeFlowRoute (some "session-c4w") (some "developer") (some ["react"])
      (some 11) none (some (ParsedJson.arr ["q1"]))).flowStateOut
      = some { sessionId := "session-c4w", currentDifficulty := 11, baseDifficulty := 11,
               consecutiveCorrect := 0, consecutiveIncorrect := 0, totalQuestions := 10,
               questionsAsked := 0, mvpKeywords := [], role := "developer",
               techStack := ["react"], questionHistory := [], lastAnalysis := none } :=
  C4_no_validation "session-c4w" "developer" ["react"] 11 (some (ParsedJson.arr ["q1"]))
    (by decide) (by decide)

/-- Fresh state used by the C5 counterexample. -/
def freshC5 : AdaptiveFlowState := initializeFlowState "session-c5" "developer" ["react"] 5 10

/-- Analysis used by the C5 counterexample. -/
def analysisC5 : ResponseAnalysis :=
  { mvpKeywords := ["hooks"], confidence := 8, technicalAccuracy := 8, completeness := 8,
    overallScore := 8, suggestedNextDifficulty := 6, reasoning := "good" }

/-- C5 counterexample: the first of the two persistence writes of
`generateNextQuestion` is a partial state — `questionsAsked` already
incremented to 1 while `questionHistory` still has 0 entries.  It is a
completed full-document write, visible to readers before (and, if the
question generation or second write fails, after) the pipeline ends, so a
state with `questionsAsked` incremented but no matching history entry does
become visible. -/
theorem C5_counterexample :
    ((generateNextQuestionWrites freshC5 analysisC5 "Q2" "2024-01-01T00:00:00Z").head?.map
      (fun w => (w.questionsAsked, w.questionHistory.length))) = some (1, 0) ∧
    ((generateNextQuestionWrites freshC5 analysisC5 "Q2" "2024-01-01T00:00:00Z").getLast?.map
      (fun w => (w.questionsAsked, w.questionHistory.length))) = some (1, 1) := by
  decide

/-- C5 (amended): `generateNextQuestion` issues exactly two full-document
writes keyed by the same session.  The first persists the advanced state —
`questionsAsked` incremented, `questionHistory` unchanged — before the
next question exists, so that intermediate state is visible to readers
between the writes and remains persisted if a later stage fails.  The
second write is the same document with the one history record appended (a
full replace of the first, so re-running it overwrites rather than
duplicates). -/
theorem C5_write_sequence (s : AdaptiveFlowState) (a : ResponseAnalysis) (q t : String) :
    (generateNextQuestionWrites s a q t).length = 2 ∧
    (generateNextQuestionWrites s a q t).head? = some (updateFlowState s a) ∧
    (updateFlowState s a).questionsAsked = s.questionsAsked + 1 ∧
    (updateFlowState s a).questionHistory = s.questionHistory ∧
    (generateNextQuestionWrites s a q t).getLast? =
      some { updateFlowState s a with
             questionHistory := s.questionHistory ++
               [{ question := q, timestamp := t,
                  difficulty := (updateFlowState s a).currentDifficulty,
                  category := "adaptive" }] } ∧
    ∀ w ∈ generateNextQuestionWrites s a q t, w.sessionId = s.sessionId := by
  refine ⟨rfl, rfl, rfl, rfl, rfl, ?_⟩
  intro w hw
  simp only [generateNextQuestionWrites, List.mem_cons, List.mem_singleton] at hw
  rcases hw with h | h | h
  · rw [h]; rfl
  · rw [h]; rfl
  · cases h

/-- Assistant speech-start from any state stamps `aiSpeechStartTime` and
fires the speech-start callback. -/
theorem handleMessage_speech_start (s : HandlerState) (t0 : Int) :
    handleMessage s { type := "speech-start", role := "assistant" } t0
      = { s with aiSpeechStartTime := some t0,
                 speechStartCallbacks := s.speechStartCallbacks + 1 } := rfl

/-- A user partial transcript while AI speech is in progress (truthy start
time) records one interruption with delay equal to the timestamp
difference. -/
theorem handleMessage_partial_user (s : HandlerState) (t0 timestamp : Int) (txt : String)
    (hai : s.aiSpeechStartTime = some t0) (ht0 : t0 ≠ 0) :
    handleMessage s { type := "transcript", role := "user",
                      transcriptType := "partial", transcript := txt } timestamp
      = { s with interruptionTimes := s.interruptionTimes ++ [timestamp - t0],
                 totalInterruptions := s.totalInterruptions + 1,
                 interruptionCallbacks := s.interruptionCallbacks + 1 } := by
  simp [handleMessage, recordInterruption, truthyTime, hai, ht0]

/-- An interruption-class event with `aiSpeechStartTime` unset records
nothing: the delay list and the interruption counter are unchanged (and
the handler, being a total function, cannot throw). -/
theorem handleMessage_no_ai_speech (s : HandlerState) (m : VapiMessage) (t : Int)
    (hai : s.aiSpeechStartTime = none)
    (hm : (m.type = "transcript" ∧ m.role = "user" ∧ m.transcriptType = "partial") ∨
          m.type = "user-interrupted" ∨ m.type = "voice-input" ∨
          (m.type = "speech-update" ∧ m.role = "user" ∧ m.status = "started")) :
    (handleMessage s m t).interruptionTimes = s.interruptionTimes ∧
    (handleMessage s m t).totalInterruptions = s.totalInterruptions := by
  rcases hm with ⟨h1, h2, h3⟩ | h1 | h1 | ⟨h1, h2, h3⟩ <;>
    simp [handleMessage, recordInterruption, truthyTime, h1, hai]

/-- C9: (1) feeding assistant speech-start at time `t0` (any nonzero clock
value) and then a user partial transcript with non-empty text at time
`t0 + d` records exactly one interruption whose delay is `d`; (2) any
interruption-class event — user partial transcript, user-interrupted,
voice-input, or user speech-update "started" — processed while
`aiSpeechStartTime` is unset records nothing (no delay is added and the
counter is unchanged; the handler is total, so nothing can throw). -/
theorem C9_interruption_recording :
    (∀ (t0 d : Int) (txt : String), t0 ≠ 0 → txt ≠ "" →
      (runMessageHandler initialHandlerState
        [ ({ type := "speech-start", role := "assistant" }, t0),
          ({ type := "transcript", role := "user", transcriptType := "partial",
             transcript := txt }, t0 + d) ]).interruptionTimes = [d] ∧
      (runMessageHandler initialHandlerState
        [ ({ type := "speech-start", role := "assistant" }, t0),
          ({ type := "transcript", role := "user", transcriptType := "partial",
             transcript := txt }, t0 + d) ]).totalInterruptions = 1) ∧
    (∀ (s : HandlerState) (m : VapiMessage) (t : Int),
      s.aiSpeechStartTime = none →
      ((m.type = "transcript" ∧ m.role = "user" ∧ m.transcriptType = "partial") ∨
       m.type = "user-interrupted" ∨ m.type = "voice-input" ∨
       (m.type = "speech-update" ∧ m.role = "user" ∧ m.status = "started")) →
      (handleMessage s m t).interruptionTimes = s.interruptionTimes ∧
      (handleMessage s m t).totalInterruptions = s.totalInterruptions) := by
  constructor
  · intro t0 d txt ht0 htxt
    have e0 : runMessageHandler initialHandlerState
        [ ({ type := "speech-start", role := "assistant" }, t0),
          ({ type := "transcript", role := "user", transcriptType := "partial",
             transcript := txt }, t0 + d) ]
        = handleMessage (handleMessage initialHandlerState
            { type := "speech-start", role := "assistant" } t0)
            { type := "transcript", role := "user", transcriptType := "partial",
              transcript := txt } (t0 + d) := rfl
    rw [e0, handleMessage_speech_start initialHandlerState t0,
        handleMessage_partial_user _ t0 (t0 + d) txt rfl ht0]
    constructor
    · show ([] : List Int) ++ [t0 + d - t0] = [d]
      simp
    · rfl
  · intro s m t hai hm
    exact handleMessage_no_ai_speech s m t hai hm

/-- Witness for C9: part (1) at `t0 = 1000`, `d = 250`, and part (2) at
the fresh handler state on a user-interrupted event. -/
theorem C9_interruption_recording_witness :
    ((runMessageHandler initialHandlerState
        [ ({ type := "speech-start", role := "assistant" }, 1000),
          ({ type := "transcript", role := "user", transcriptType := "partial",
             transcript := "wait" }, 1000 + 250) ]).interruptionTimes = [250] ∧
     (runMessageHandler initialHandlerState
        [ ({ type := "speech-start", role := "assistant" }, 1000),
          ({ type := "transcript", role := "user", transcriptType := "partial",
             transcript := "wait" }, 1000 + 250) ]).totalInterruptions = 1) ∧
    ((handleMessage initialHandlerState { type := "user-interrupted" } 500).interruptionTimes
        = initialHandlerState.interruptionTimes ∧
     (handleMessage initialHandlerState { type := "user-interrupted" } 500).totalInterruptions
        = initialHandlerState.totalInterruptions) :=
  ⟨C9_interruption_recording.1 1000 250 "wait" (by decide) (by decide),
   C9_interruption_recording.2 initialHandlerState { type := "user-interrupted" } 500
     rfl (Or.inr (Or.inl rfl))⟩

/-- C10: when the stored flow state has `questionsAsked >=
totalQuestions`, the next-question route returns success with
`shouldContinue = false` and the interview summary, and the pipeline is
not run: the analyzer is not invoked and no persistence write is issued,
so the candidate's final answer cannot change the stored flow state. -/
theorem C10_completed_short_circuit (sid ur cq : String) (fs : AdaptiveFlowState)
    (a : ResponseAnalysis) (q t : String)
    (hsid : sid ≠ "") (hur : ur ≠ "") (hcq : cq ≠ "")
    (hdone : fs.totalQuestions ≤ fs.questionsAsked) :
    nextQuestionRoute (some sid) (some ur) (some cq) (some fs) a q t =
      { response := { success := true, status := 200, shouldContinue := some false,
                      message := some "Interview completed",
                      summary := some (generateInterviewSummary fs) }
        persistedWrites := []
        analyzerCalls := 0 } := by
  have htr : ¬ ¬ (truthyStr (some sid) = true ∧ truthyStr (some ur) = true ∧
      truthyStr (some cq) = true) := by
    simp [truthyStr, hsid, hur, hcq]
  have hsc : ¬ shouldContinueInterview fs = true := by
    simp [shouldContinueInterview]
    omega
  unfold nextQuestionRoute
  rw [if_neg htr]
  exact if_pos hsc

/-- Stored flow state that has reached its question budget, for the C10
witness. -/
def doneState : AdaptiveFlowState :=
  { initializeFlowState "session-c10" "developer" ["react"] 5 3 with questionsAsked := 3 }

/-- Analysis value passed to the route in the C10 witness (never consumed
on the short-circuit path). -/
def unusedAnalysis : ResponseAnalysis :=
  { mvpKeywords := [], confidence := 5, technicalAccuracy := 5, completeness := 5,
    overallScore := 5, suggestedNextDifficulty := 5, reasoning := "n/a" }

/-- Witness for C10 at a concrete finished session. -/
theorem C10_completed_short_circuit_witness :
    nextQuestionRoute (some "session-c10") (some "final answer") (some "last question")
        (some doneState) unusedAnalysis "unused" "2024-01-01" =
      { response := { success := true, status := 200, shouldContinue := some false,
                      message := some "Interview completed",
                      summary := some (generateInterviewSummary doneState) }
        persistedWrites := []
        analyzerCalls := 0 } :=
  C10_completed_short_circuit "session-c10" "final answer" "last question" doneState
    unusedAnalysis "unused" "2024-01-01" (by decide) (by decide) (by decide) (by decide)
